import Mathlib

/-!
Shallow embedding of a FastAPI + MySQL CRUD service (files `database.py` and
`main.py`): a connection-pool-backed query executor and per-resource CRUD
handlers for employees, clients and suppliers.

Modelling conventions:
- Python values occurring in queries and rows are the inductive `PyVal`;
  the float field `salario` is only ever passed through unchanged, so it is
  represented exactly as a rational number.
- The behaviour of the external MySQL server during one `execute_query`
  call is an explicit script (`DBScript`): whether `cursor.execute`, the
  fetches and `conn.commit` succeed or raise, the values they produce, and
  whether `conn.is_connected()` still reports true in the `finally` block.
- The pool is abstracted to its available-connection count.
- Handlers are modelled as pure functions from a table state and the request
  payload to a response, the successor state, and the list of issued queries.
-/

/-- A Python value as it appears in bound query parameters and result rows. -/
inductive PyVal where
  | s (v : String)
  | i (v : Int)
  | f (v : Rat)
  | null
  deriving DecidableEq, Repr

/-- A row produced by a dictionary cursor: column name to value. -/
abbrev Row := List (String × PyVal)

/-- Outcome of one Python call: a value, or a raised exception. -/
inductive PyResult (α : Type) where
  | ok (a : α)
  | exn
  deriving DecidableEq, Repr

/-- Script for the external database during one `execute_query` call:
what each step would do when reached, and whether `conn.is_connected()`
still reports true in the `finally` block of `get_db_connection`. -/
structure DBScript where
  execRes : PyResult Unit
  fetchOneRes : PyResult (Option Row)
  fetchAllRes : PyResult (List Row)
  commitRes : PyResult Unit
  lastrowidVal : Int
  rowcountVal : Int
  connectedAtExit : Bool
  deriving DecidableEq, Repr

/-- The three selector flags of `execute_query` (default branch = affected
row count). -/
structure QueryFlags where
  fetch_one : Bool
  fetch_all : Bool
  lastrowid : Bool
  deriving DecidableEq, Repr

/-- The value returned by `execute_query`, tagged by the branch taken. -/
inductive RetVal where
  | one (r : Option Row)
  | all (rs : List Row)
  | newId (n : Int)
  | count (n : Int)
  deriving DecidableEq, Repr

/-- Observable outcome of one `execute_query` call: the returned value or
exception, whether `conn.commit()` was invoked, how many times the
connection was returned to the pool, and the pool availability afterwards. -/
structure ExecOutcome where
  result : PyResult RetVal
  commitCalled : Bool
  released : Nat
  finalAvail : Nat
  deriving DecidableEq, Repr

/-- The `finally` block of `get_db_connection`: the connection is closed
(returned to the pool) only when it is set and still reports connected. -/
def finishQuery (script : DBScript) (availAcq : Nat) (r : PyResult RetVal)
    (c : Bool) : ExecOutcome :=
  if script.connectedAtExit then ⟨r, c, 1, availAcq + 1⟩
  else ⟨r, c, 0, availAcq⟩

/-- The body of `execute_query` between acquiring the cursor and the
`finally` block: `cursor.execute`, then the `if fetch_one / elif fetch_all /
elif lastrowid / else` chain. Returns the produced result (or exception)
and whether `conn.commit()` was invoked. -/
def queryBody (script : DBScript) (f : QueryFlags) : PyResult RetVal × Bool :=
  match script.execRes with
  | .exn => ⟨.exn, false⟩
  | .ok _ =>
    if f.fetch_one then
      match script.fetchOneRes with
      | .exn => ⟨.exn, false⟩
      | .ok r => ⟨.ok (.one r), false⟩
    else if f.fetch_all then
      match script.fetchAllRes with
      | .exn => ⟨.exn, false⟩
      | .ok rs => ⟨.ok (.all rs), false⟩
    else if f.lastrowid then
      match script.commitRes with
      | .exn => ⟨.exn, true⟩
      | .ok _ => ⟨.ok (.newId script.lastrowidVal), true⟩
    else
      match script.commitRes with
      | .exn => ⟨.exn, true⟩
      | .ok _ => ⟨.ok (.count script.rowcountVal), true⟩

/-- `execute_query` from `database.py`, run against a pool with `avail`
available connections and the given database script: acquire a
connection (raising when the pool is exhausted), run the body, and pass
through the `finally` block of the scoped acquisition. -/
def execute_query (script : DBScript) (f : QueryFlags) (avail : Nat) :
    ExecOutcome :=
  match avail with
  | 0 => ⟨.exn, false, 0, 0⟩
  | availAcq + 1 =>
    finishQuery script availAcq (queryBody script f).1 (queryBody script f).2

theorem finishQuery_result (s : DBScript) (a : Nat) (r : PyResult RetVal)
    (c : Bool) : (finishQuery s a r c).result = r := by
  unfold finishQuery; split <;> rfl

theorem finishQuery_commit (s : DBScript) (a : Nat) (r : PyResult RetVal)
    (c : Bool) : (finishQuery s a r c).commitCalled = c := by
  unfold finishQuery; split <;> rfl

/-- A sample script where every database step succeeds. -/
def sampleScript : DBScript :=
  ⟨.ok (), .ok (some [("id", PyVal.i 1)]), .ok [], .ok (), 7, 2, true⟩

/-- C1 counterexample: a statement-execution failure that also leaves the
connection reporting not-connected skips the release in the `finally`
block, so a failed call can shrink the available-connection count (3 before,
2 after). -/
theorem c1_counterexample :
    (execute_query ⟨.exn, .ok none, .ok [], .ok (), 1, 0, false⟩
      ⟨false, false, false⟩ 3).result = .exn ∧
    (execute_query ⟨.exn, .ok none, .ok [], .ok (), 1, 0, false⟩
      ⟨false, false, false⟩ 3).finalAvail = 2 ∧ (2 : Nat) ≠ 3 :=
  ⟨rfl, rfl, by decide⟩

/-- C1 (amended): whenever the connection still reports connected in the
`finally` block, every exit path of `execute_query` — success, statement
execution error, fetch or commit error — returns the connection to the pool
exactly once, and the available count is restored to its value before the
call. -/
theorem c1_release_when_connected (script : DBScript) (f : QueryFlags)
    (avail : Nat) (h : 0 < avail) (hc : script.connectedAtExit = true) :
    (execute_query script f avail).released = 1 ∧
    (execute_query script f avail).finalAvail = avail := by
  obtain ⟨a, rfl⟩ : ∃ a, avail = a + 1 := ⟨avail - 1, by omega⟩
  simp [execute_query, finishQuery, hc]

/-- C1 witness: the amended theorem at a concrete script and pool size. -/
theorem c1_release_when_connected_witness :
    (execute_query sampleScript ⟨true, false, false⟩ 3).released = 1 ∧
    (execute_query sampleScript ⟨true, false, false⟩ 3).finalAvail = 3 :=
  c1_release_when_connected sampleScript ⟨true, false, false⟩ 3
    (by decide) rfl

/-- C3: branch semantics of `execute_query`. With `fetch_one` it returns the
fetched optional row and never commits; with `fetch_all` it returns the
fetched list and never commits; with `lastrowid` it calls `conn.commit()`
and returns the last generated identifier; otherwise it calls
`conn.commit()` and returns the affected-row count — so commit is invoked
exactly in the last two branches. -/
theorem c3_execute_query_branches (script : DBScript) (avail : Nat)
    (h : 0 < avail) :
    ((execute_query script ⟨true, false, false⟩ avail).commitCalled = false ∧
      ∀ r, script.execRes = .ok () → script.fetchOneRes = .ok r →
        (execute_query script ⟨true, false, false⟩ avail).result =
          .ok (.one r)) ∧
    ((execute_query script ⟨false, true, false⟩ avail).commitCalled = false ∧
      ∀ rs, script.execRes = .ok () → script.fetchAllRes = .ok rs →
        (execute_query script ⟨false, true, false⟩ avail).result =
          .ok (.all rs)) ∧
    ((script.execRes = .ok () →
        (execute_query script ⟨false, false, true⟩ avail).commitCalled =
          true) ∧
      (script.execRes = .ok () → script.commitRes = .ok () →
        (execute_query script ⟨false, false, true⟩ avail).result =
          .ok (.newId script.lastrowidVal))) ∧
    ((script.execRes = .ok () →
        (execute_query script ⟨false, false, false⟩ avail).commitCalled =
          true) ∧
      (script.execRes = .ok () → script.commitRes = .ok () →
        (execute_query script ⟨false, false, false⟩ avail).result =
          .ok (.count script.rowcountVal))) := by
  obtain ⟨a, rfl⟩ : ∃ a, avail = a + 1 := ⟨avail - 1, by omega⟩
  simp only [execute_query, finishQuery_result, finishQuery_commit]
  refine ⟨⟨?_, ?_⟩, ⟨?_, ?_⟩, ⟨?_, ?_⟩, ?_, ?_⟩
  · cases hE : script.execRes <;> simp [queryBody, hE]
    cases hF : script.fetchOneRes <;> simp [hF]
  · intro r hE hF
    simp [queryBody, hE, hF]
  · cases hE : script.execRes <;> simp [queryBody, hE]
    cases hF : script.fetchAllRes <;> simp [hF]
  · intro rs hE hF
    simp [queryBody, hE, hF]
  · intro hE
    cases hC : script.commitRes <;> simp [queryBody, hE, hC]
  · intro hE hC
    simp [queryBody, hE, hC]
  · intro hE
    cases hC : script.commitRes <;> simp [queryBody, hE, hC]
  · intro hE hC
    simp [queryBody, hE, hC]

/-- C3 witness: the branch theorem evaluated on a concrete script. -/
theorem c3_execute_query_branches_witness :
    (execute_query sampleScript ⟨true, false, false⟩ 1).commitCalled =
      false ∧
    (execute_query sampleScript ⟨true, false, false⟩ 1).result =
      .ok (.one (some [("id", PyVal.i 1)])) ∧
    (execute_query sampleScript ⟨false, false, true⟩ 1).commitCalled =
      true ∧
    (execute_query sampleScript ⟨false, false, true⟩ 1).result =
      .ok (.newId 7) ∧
    (execute_query sampleScript ⟨false, false, false⟩ 1).result =
      .ok (.count 2) :=
  ⟨(c3_execute_query_branches sampleScript 1 (by decide)).1.1,
   (c3_execute_query_branches sampleScript 1 (by decide)).1.2
     (some [("id", PyVal.i 1)]) rfl rfl,
   (c3_execute_query_branches sampleScript 1 (by decide)).2.2.1.1 rfl,
   (c3_execute_query_branches sampleScript 1 (by decide)).2.2.1.2 rfl rfl,
   (c3_execute_query_branches sampleScript 1 (by decide)).2.2.2.2 rfl rfl⟩

/-- C9: the `if / elif` chain gives the selector flags a fixed precedence —
`fetch_one` over `fetch_all` over `lastrowid` over the affected-count
default — and no commit is ever invoked when `fetch_one` or `fetch_all`
is set, whatever the other flags are. -/
theorem c9_flag_precedence (script : DBScript) (avail : Nat)
    (b2 b3 b3' : Bool) :
    execute_query script ⟨true, b2, b3⟩ avail =
      execute_query script ⟨true, false, false⟩ avail ∧
    execute_query script ⟨false, true, b3'⟩ avail =
      execute_query script ⟨false, true, false⟩ avail ∧
    ∀ f : QueryFlags, f.fetch_one = true ∨ f.fetch_all = true →
      (execute_query script f avail).commitCalled = false := by
  refine ⟨?_, ?_, ?_⟩
  · cases avail with
    | zero => rfl
    | succ a =>
      simp only [execute_query]
      cases hE : script.execRes <;> simp [queryBody, hE]
  · cases avail with
    | zero => rfl
    | succ a =>
      simp only [execute_query]
      cases hE : script.execRes <;> simp [queryBody, hE]
  · intro f hf
    cases avail with
    | zero => rfl
    | succ a =>
      simp only [execute_query, finishQuery_commit]
      rcases hf with h1 | h2
      · cases hE : script.execRes <;>
          cases hF : script.fetchOneRes <;>
            simp [queryBody, hE, hF, h1]
      · cases hE : script.execRes <;>
          cases hF1 : script.fetchOneRes <;>
            cases hF : script.fetchAllRes <;>
              cases hb : f.fetch_one <;>
                simp [queryBody, hE, hF1, hF, h2, hb]

/-- C9 witness: with every flag set, the call behaves exactly as a pure
single-row fetch and does not commit. -/
theorem c9_flag_precedence_witness :
    execute_query sampleScript ⟨true, true, true⟩ 3 =
      execute_query sampleScript ⟨true, false, false⟩ 3 ∧
    (execute_query sampleScript ⟨true, true, true⟩ 3).commitCalled =
      false :=
  ⟨(c9_flag_precedence sampleScript 3 true true true).1,
   (c9_flag_precedence sampleScript 3 true true true).2.2
     ⟨true, true, true⟩ (Or.inl rfl)⟩

/-- A query as passed to the executor: SQL text with positional
placeholders, plus the ordered bound-parameter values. -/
structure QueryRequest where
  sql : String
  params : List PyVal
  deriving DecidableEq, Repr

/-- A handler response: a body with its HTTP status, or a raised
`HTTPException` with its status. -/
inductive Response (α : Type) where
  | ok (status : Nat) (body : α)
  | err (status : Nat)
  deriving DecidableEq, Repr

/-- What one handler invocation produces: the response, the table state
after the call, and the queries issued to the executor, in order. -/
structure HandlerOut (σ α : Type) where
  resp : Response α
  state : σ
  issued : List QueryRequest
  deriving DecidableEq, Repr

/-- Request body of POST/PUT `/empleados` (`EmpleadoCreate`). -/
structure EmpleadoCreate where
  nombre : String
  puesto : String
  salario : Rat
  deriving DecidableEq, Repr

/-- A stored employee row (`Empleado`: the create fields plus `id`). -/
structure EmpleadoRow where
  id : Int
  nombre : String
  puesto : String
  salario : Rat
  deriving DecidableEq, Repr

/-- Request body of POST/PUT `/clientes` (`ClienteCreate`);
`email_cliente` is optional. -/
structure ClienteCreate where
  numero_identificacion : String
  nombre_cliente : String
  telefono_cliente : String
  email_cliente : Option String
  deriving DecidableEq, Repr

/-- A stored client row (`Cliente`: the create fields plus `id_cliente`). -/
structure ClienteRow where
  id_cliente : Int
  numero_identificacion : String
  nombre_cliente : String
  telefono_cliente : String
  email_cliente : Option String
  deriving DecidableEq, Repr

/-- Request body of POST/PUT `/proveedores` (`ProveedorCreate`). -/
structure ProveedorCreate where
  numero_identificacion : String
  nombre_proveedor : String
  contacto_principal : String
  telefono_proveedor : String
  deriving DecidableEq, Repr

/-- A stored supplier row (`Proveedor`: the create fields plus
`id_proveedor`). -/
structure ProveedorRow where
  id_proveedor : Int
  numero_identificacion : String
  nombre_proveedor : String
  contacto_principal : String
  telefono_proveedor : String
  deriving DecidableEq, Repr

/-- One relational table: its rows plus the next auto-increment id. -/
structure Table (ρ : Type) where
  rows : List ρ
  nextId : Int
  deriving DecidableEq, Repr

/-- An optional string as a bound parameter: Python `None` becomes NULL. -/
def optStrVal : Option String → PyVal
  | none => .null
  | some v => .s v

/-- The queries built by the employee handlers in `main.py`. The SQL text
is a fixed literal; request data enters only the parameter list. -/
def getEmpleadoQuery (id : Int) : QueryRequest :=
  ⟨"SELECT * FROM empleados WHERE id = %s", [.i id]⟩

def insertEmpleadoQuery (e : EmpleadoCreate) : QueryRequest :=
  ⟨"INSERT INTO empleados (nombre, puesto, salario) VALUES (%s, %s, %s)",
   [.s e.nombre, .s e.puesto, .f e.salario]⟩

def updateEmpleadoQuery (id : Int) (e : EmpleadoCreate) : QueryRequest :=
  ⟨"UPDATE empleados SET nombre=%s, puesto=%s, salario=%s WHERE id=%s",
   [.s e.nombre, .s e.puesto, .f e.salario, .i id]⟩

def deleteEmpleadoQuery (id : Int) : QueryRequest :=
  ⟨"DELETE FROM empleados WHERE id = %s", [.i id]⟩

/-- The queries built by the client handlers in `main.py`. -/
def getClienteQuery (id : Int) : QueryRequest :=
  ⟨"SELECT * FROM clientes WHERE id_cliente = %s", [.i id]⟩

def insertClienteQuery (c : ClienteCreate) : QueryRequest :=
  ⟨"INSERT INTO clientes (numero_identificacion, nombre_cliente, telefono_cliente, email_cliente) VALUES (%s, %s, %s, %s)",
   [.s c.numero_identificacion, .s c.nombre_cliente, .s c.telefono_cliente,
    optStrVal c.email_cliente]⟩

def updateClienteQuery (id : Int) (c : ClienteCreate) : QueryRequest :=
  ⟨"UPDATE clientes SET numero_identificacion=%s, nombre_cliente=%s, telefono_cliente=%s, email_cliente=%s WHERE id_cliente=%s",
   [.s c.numero_identificacion, .s c.nombre_cliente, .s c.telefono_cliente,
    optStrVal c.email_cliente, .i id]⟩

def deleteClienteQuery (id : Int) : QueryRequest :=
  ⟨"DELETE FROM clientes WHERE id_cliente = %s", [.i id]⟩

/-- The queries built by the supplier handlers in `main.py`. -/
def getProveedorQuery (id : Int) : QueryRequest :=
  ⟨"SELECT * FROM proveedores WHERE id_proveedor = %s", [.i id]⟩

def insertProveedorQuery (p : ProveedorCreate) : QueryRequest :=
  ⟨"INSERT INTO proveedores (numero_identificacion, nombre_proveedor, contacto_principal, telefono_proveedor) VALUES (%s, %s, %s, %s)",
   [.s p.numero_identificacion, .s p.nombre_proveedor,
    .s p.contacto_principal, .s p.telefono_proveedor]⟩

def updateProveedorQuery (id : Int) (p : ProveedorCreate) : QueryRequest :=
  ⟨"UPDATE proveedores SET numero_identificacion=%s, nombre_proveedor=%s, contacto_principal=%s, telefono_proveedor=%s WHERE id_proveedor=%s",
   [.s p.numero_identificacion, .s p.nombre_proveedor,
    .s p.contacto_principal, .s p.telefono_proveedor, .i id]⟩

def deleteProveedorQuery (id : Int) : QueryRequest :=
  ⟨"DELETE FROM proveedores WHERE id_proveedor = %s", [.i id]⟩

/-- Interpretation of `INSERT INTO empleados ... VALUES (%s, %s, %s)` under
MySQL semantics: append a row under the next auto-increment id and report
that id as `lastrowid`. -/
def insertEmpleadosSQL (t : Table EmpleadoRow) (e : EmpleadoCreate) :
    Int × Table EmpleadoRow :=
  ⟨t.nextId, ⟨t.rows ++ [⟨t.nextId, e.nombre, e.puesto, e.salario⟩],
    t.nextId + 1⟩⟩

/-- The row an `UPDATE empleados SET ...` writes over an existing row. -/
def empleadoApply (e : EmpleadoCreate) (r : EmpleadoRow) : EmpleadoRow :=
  ⟨r.id, e.nombre, e.puesto, e.salario⟩

/-- Interpretation of `UPDATE empleados SET ... WHERE id=%s`: rewrite every
matching row; the reported affected-row count is the number of matching
rows whose stored values actually change (MySQL default, no
`CLIENT_FOUND_ROWS`). -/
def updateEmpleadosSQL (t : Table EmpleadoRow) (id : Int)
    (e : EmpleadoCreate) : Table EmpleadoRow × Int :=
  ⟨⟨t.rows.map (fun r => if r.id = id then empleadoApply e r else r),
    t.nextId⟩,
   ((t.rows.filter (fun r =>
      decide (r.id = id ∧ empleadoApply e r ≠ r))).length : Int)⟩

/-- Interpretation of `DELETE FROM empleados WHERE id = %s`: drop every
matching row and report how many were dropped. -/
def deleteEmpleadosSQL (t : Table EmpleadoRow) (id : Int) :
    Table EmpleadoRow × Int :=
  ⟨⟨t.rows.filter (fun r => decide (r.id ≠ id)), t.nextId⟩,
   ((t.rows.filter (fun r => decide (r.id = id))).length : Int)⟩

/-- Interpretation of `INSERT INTO clientes ...` under MySQL semantics. -/
def insertClientesSQL (t : Table ClienteRow) (c : ClienteCreate) :
    Int × Table ClienteRow :=
  ⟨t.nextId, ⟨t.rows ++ [⟨t.nextId, c.numero_identificacion,
    c.nombre_cliente, c.telefono_cliente, c.email_cliente⟩], t.nextId + 1⟩⟩

/-- The row an `UPDATE clientes SET ...` writes over an existing row. -/
def clienteApply (c : ClienteCreate) (r : ClienteRow) : ClienteRow :=
  ⟨r.id_cliente, c.numero_identificacion, c.nombre_cliente,
   c.telefono_cliente, c.email_cliente⟩

/-- Interpretation of `UPDATE clientes SET ... WHERE id_cliente=%s`. -/
def updateClientesSQL (t : Table ClienteRow) (id : Int) (c : ClienteCreate) :
    Table ClienteRow × Int :=
  ⟨⟨t.rows.map (fun r => if r.id_cliente = id then clienteApply c r else r),
    t.nextId⟩,
   ((t.rows.filter (fun r =>
      decide (r.id_cliente = id ∧ clienteApply c r ≠ r))).length : Int)⟩

/-- Interpretation of `DELETE FROM clientes WHERE id_cliente = %s`. -/
def deleteClientesSQL (t : Table ClienteRow) (id : Int) :
    Table ClienteRow × Int :=
  ⟨⟨t.rows.filter (fun r => decide (r.id_cliente ≠ id)), t.nextId⟩,
   ((t.rows.filter (fun r => decide (r.id_cliente = id))).length : Int)⟩

/-- Interpretation of `INSERT INTO proveedores ...` under MySQL semantics. -/
def insertProveedoresSQL (t : Table ProveedorRow) (p : ProveedorCreate) :
    Int × Table ProveedorRow :=
  ⟨t.nextId, ⟨t.rows ++ [⟨t.nextId, p.numero_identificacion,
    p.nombre_proveedor, p.contacto_principal, p.telefono_proveedor⟩],
    t.nextId + 1⟩⟩

/-- The row an `UPDATE proveedores SET ...` writes over an existing row. -/
def proveedorApply (p : ProveedorCreate) (r : ProveedorRow) : ProveedorRow :=
  ⟨r.id_proveedor, p.numero_identificacion, p.nombre_proveedor,
   p.contacto_principal, p.telefono_proveedor⟩

/-- Interpretation of `UPDATE proveedores SET ... WHERE id_proveedor=%s`. -/
def updateProveedoresSQL (t : Table ProveedorRow) (id : Int)
    (p : ProveedorCreate) : Table ProveedorRow × Int :=
  ⟨⟨t.rows.map (fun r =>
      if r.id_proveedor = id then proveedorApply p r else r), t.nextId⟩,
   ((t.rows.filter (fun r =>
      decide (r.id_proveedor = id ∧ proveedorApply p r ≠ r))).length : Int)⟩

/-- Interpretation of `DELETE FROM proveedores WHERE id_proveedor = %s`. -/
def deleteProveedoresSQL (t : Table ProveedorRow) (id : Int) :
    Table ProveedorRow × Int :=
  ⟨⟨t.rows.filter (fun r => decide (r.id_proveedor ≠ id)), t.nextId⟩,
   ((t.rows.filter (fun r => decide (r.id_proveedor = id))).length : Int)⟩

/-- GET `/empleados/id`: fetch one row by id; 404 when absent. -/
def get_empleado (t : Table EmpleadoRow) (id : Int) :
    HandlerOut (Table EmpleadoRow) EmpleadoRow :=
  match t.rows.find? (fun r => decide (r.id = id)) with
  | none => ⟨.err 404, t, [getEmpleadoQuery id]⟩
  | some r => ⟨.ok 200 r, t, [getEmpleadoQuery id]⟩

/-- POST `/empleados` (success path of the database call): no field
validation is performed; the insert is issued unconditionally and the
response is the submitted fields plus the generated id, status 201. -/
def create_empleado (t : Table EmpleadoRow) (e : EmpleadoCreate) :
    HandlerOut (Table EmpleadoRow) EmpleadoRow :=
  let res := insertEmpleadosSQL t e
  ⟨.ok 201 ⟨res.1, e.nombre, e.puesto, e.salario⟩, res.2,
   [insertEmpleadoQuery e]⟩

/-- PUT `/empleados/id`: no field validation; run the update, 404 when the
affected-row count is zero, otherwise the submitted fields plus the id. -/
def update_empleado (t : Table EmpleadoRow) (id : Int) (e : EmpleadoCreate) :
    HandlerOut (Table EmpleadoRow) EmpleadoRow :=
  let res := updateEmpleadosSQL t id e
  if res.2 = 0 then ⟨.err 404, res.1, [updateEmpleadoQuery id e]⟩
  else ⟨.ok 200 ⟨id, e.nombre, e.puesto, e.salario⟩, res.1,
    [updateEmpleadoQuery id e]⟩

/-- DELETE `/empleados/id`: run the delete, 404 when the affected-row count
is zero, otherwise 204 with no content. -/
def delete_empleado (t : Table EmpleadoRow) (id : Int) :
    HandlerOut (Table EmpleadoRow) Unit :=
  let res := deleteEmpleadosSQL t id
  if res.2 = 0 then ⟨.err 404, res.1, [deleteEmpleadoQuery id]⟩
  else ⟨.ok 204 (), res.1, [deleteEmpleadoQuery id]⟩

/-- GET `/clientes/id`: fetch one row by id; 404 when absent. -/
def get_cliente (t : Table ClienteRow) (id : Int) :
    HandlerOut (Table ClienteRow) ClienteRow :=
  match t.rows.find? (fun r => decide (r.id_cliente = id)) with
  | none => ⟨.err 404, t, [getClienteQuery id]⟩
  | some r => ⟨.ok 200 r, t, [getClienteQuery id]⟩

/-- POST `/clientes`: an empty identification, name or phone (Python falsy
string) yields a 400 before any query; otherwise insert and answer 201
with the submitted fields plus the generated id. -/
def create_cliente (t : Table ClienteRow) (c : ClienteCreate) :
    HandlerOut (Table ClienteRow) ClienteRow :=
  if c.numero_identificacion = "" ∨ c.nombre_cliente = "" ∨
      c.telefono_cliente = "" then
    ⟨.err 400, t, []⟩
  else
    let res := insertClientesSQL t c
    ⟨.ok 201 ⟨res.1, c.numero_identificacion, c.nombre_cliente,
      c.telefono_cliente, c.email_cliente⟩, res.2, [insertClienteQuery c]⟩

/-- PUT `/clientes/id`: same validation as create, then the update with a
404 on a zero affected-row count. -/
def update_cliente (t : Table ClienteRow) (id : Int) (c : ClienteCreate) :
    HandlerOut (Table ClienteRow) ClienteRow :=
  if c.numero_identificacion = "" ∨ c.nombre_cliente = "" ∨
      c.telefono_cliente = "" then
    ⟨.err 400, t, []⟩
  else
    let res := updateClientesSQL t id c
    if res.2 = 0 then ⟨.err 404, res.1, [updateClienteQuery id c]⟩
    else ⟨.ok 200 ⟨id, c.numero_identificacion, c.nombre_cliente,
      c.telefono_cliente, c.email_cliente⟩, res.1, [updateClienteQuery id c]⟩

/-- DELETE `/clientes/id`: run the delete, 404 on a zero count. -/
def delete_cliente (t : Table ClienteRow) (id : Int) :
    HandlerOut (Table ClienteRow) Unit :=
  let res := deleteClientesSQL t id
  if res.2 = 0 then ⟨.err 404, res.1, [deleteClienteQuery id]⟩
  else ⟨.ok 204 (), res.1, [deleteClienteQuery id]⟩

/-- GET `/proveedores/id`: fetch one row by id; 404 when absent. -/
def get_proveedor (t : Table ProveedorRow) (id : Int) :
    HandlerOut (Table ProveedorRow) ProveedorRow :=
  match t.rows.find? (fun r => decide (r.id_proveedor = id)) with
  | none => ⟨.err 404, t, [getProveedorQuery id]⟩
  | some r => ⟨.ok 200 r, t, [getProveedorQuery id]⟩

/-- POST `/proveedores`: `not all([...])` — any empty field yields a 400
before any query; otherwise insert and answer 201. -/
def create_proveedor (t : Table ProveedorRow) (p : ProveedorCreate) :
    HandlerOut (Table ProveedorRow) ProveedorRow :=
  if p.numero_identificacion = "" ∨ p.nombre_proveedor = "" ∨
      p.contacto_principal = "" ∨ p.telefono_proveedor = "" then
    ⟨.err 400, t, []⟩
  else
    let res := insertProveedoresSQL t p
    ⟨.ok 201 ⟨res.1, p.numero_identificacion, p.nombre_proveedor,
      p.contacto_principal, p.telefono_proveedor⟩, res.2,
     [insertProveedorQuery p]⟩

/-- PUT `/proveedores/id`: same validation as create, then the update with
a 404 on a zero affected-row count. -/
def update_proveedor (t : Table ProveedorRow) (id : Int)
    (p : ProveedorCreate) : HandlerOut (Table ProveedorRow) ProveedorRow :=
  if p.numero_identificacion = "" ∨ p.nombre_proveedor = "" ∨
      p.contacto_principal = "" ∨ p.telefono_proveedor = "" then
    ⟨.err 400, t, []⟩
  else
    let res := updateProveedoresSQL t id p
    if res.2 = 0 then ⟨.err 404, res.1, [updateProveedorQuery id p]⟩
    else ⟨.ok 200 ⟨id, p.numero_identificacion, p.nombre_proveedor,
      p.contacto_principal, p.telefono_proveedor⟩, res.1,
      [updateProveedorQuery id p]⟩

/-- DELETE `/proveedores/id`: run the delete, 404 on a zero count. -/
def delete_proveedor (t : Table ProveedorRow) (id : Int) :
    HandlerOut (Table ProveedorRow) Unit :=
  let res := deleteProveedoresSQL t id
  if res.2 = 0 then ⟨.err 404, res.1, [deleteProveedorQuery id]⟩
  else ⟨.ok 204 (), res.1, [deleteProveedorQuery id]⟩

theorem filter_length_zero {α : Type} (l : List α) (p : α → Bool)
    (h : ∀ a ∈ l, p a = false) : (l.filter p).length = 0 := by
  induction l with
  | nil => rfl
  | cons x xs ih =>
    rw [List.filter_cons, h x (List.mem_cons_self x xs)]
    exact ih (fun a ha => h a (List.mem_cons_of_mem x ha))

theorem map_eq_self_of {α : Type} (l : List α) (f : α → α)
    (h : ∀ a ∈ l, f a = a) : l.map f = l := by
  induction l with
  | nil => rfl
  | cons x xs ih =>
    rw [List.map_cons, h x (List.mem_cons_self x xs),
      ih (fun a ha => h a (List.mem_cons_of_mem x ha))]

theorem filter_eq_self_of {α : Type} (l : List α) (p : α → Bool)
    (h : ∀ a ∈ l, p a = true) : l.filter p = l := by
  induction l with
  | nil => rfl
  | cons x xs ih =>
    rw [List.filter_cons, h x (List.mem_cons_self x xs),
      ih (fun a ha => h a (List.mem_cons_of_mem x ha))]
    simp

theorem find_append_singleton {α : Type} (l : List α) (x : α) (p : α → Bool)
    (h : ∀ a ∈ l, p a = false) (hx : p x = true) :
    (l ++ [x]).find? p = some x := by
  induction l with
  | nil => simp [List.find?, hx]
  | cons y ys ih =>
    rw [List.cons_append, List.find?_cons_of_neg _
      (by rw [h y (List.mem_cons_self y ys)]; exact Bool.false_ne_true)]
    exact ih (fun a ha => h a (List.mem_cons_of_mem y ha))

theorem updateEmpleados_no_match (t : Table EmpleadoRow) (i : Int)
    (e : EmpleadoCreate) (h : ∀ r ∈ t.rows, r.id ≠ i) :
    updateEmpleadosSQL t i e = (t, 0) := by
  have h1 : t.rows.map
      (fun r => if r.id = i then empleadoApply e r else r) = t.rows :=
    map_eq_self_of _ _ (fun a ha => if_neg (h a ha))
  have h2 := filter_length_zero t.rows
    (fun r => decide (r.id = i ∧ empleadoApply e r ≠ r))
    (fun a ha => by simp [h a ha])
  unfold updateEmpleadosSQL
  rw [h1, h2]
  rfl

theorem deleteEmpleados_no_match (t : Table EmpleadoRow) (i : Int)
    (h : ∀ r ∈ t.rows, r.id ≠ i) : deleteEmpleadosSQL t i = (t, 0) := by
  have h1 : t.rows.filter (fun r => decide (r.id ≠ i)) = t.rows :=
    filter_eq_self_of _ _ (fun a ha => by simp [h a ha])
  have h2 := filter_length_zero t.rows (fun r => decide (r.id = i))
    (fun a ha => by simp [h a ha])
  unfold deleteEmpleadosSQL
  rw [h1, h2]
  rfl

theorem updateClientes_no_match (t : Table ClienteRow) (i : Int)
    (c : ClienteCreate) (h : ∀ r ∈ t.rows, r.id_cliente ≠ i) :
    updateClientesSQL t i c = (t, 0) := by
  have h1 : t.rows.map
      (fun r => if r.id_cliente = i then clienteApply c r else r) = t.rows :=
    map_eq_self_of _ _ (fun a ha => if_neg (h a ha))
  have h2 := filter_length_zero t.rows
    (fun r => decide (r.id_cliente = i ∧ clienteApply c r ≠ r))
    (fun a ha => by simp [h a ha])
  unfold updateClientesSQL
  rw [h1, h2]
  rfl

theorem deleteClientes_no_match (t : Table ClienteRow) (i : Int)
    (h : ∀ r ∈ t.rows, r.id_cliente ≠ i) : deleteClientesSQL t i = (t, 0) := by
  have h1 : t.rows.filter (fun r => decide (r.id_cliente ≠ i)) = t.rows :=
    filter_eq_self_of _ _ (fun a ha => by simp [h a ha])
  have h2 := filter_length_zero t.rows (fun r => decide (r.id_cliente = i))
    (fun a ha => by simp [h a ha])
  unfold deleteClientesSQL
  rw [h1, h2]
  rfl

theorem updateProveedores_no_match (t : Table ProveedorRow) (i : Int)
    (p : ProveedorCreate) (h : ∀ r ∈ t.rows, r.id_proveedor ≠ i) :
    updateProveedoresSQL t i p = (t, 0) := by
  have h1 : t.rows.map
      (fun r => if r.id_proveedor = i then proveedorApply p r else r) =
        t.rows :=
    map_eq_self_of _ _ (fun a ha => if_neg (h a ha))
  have h2 := filter_length_zero t.rows
    (fun r => decide (r.id_proveedor = i ∧ proveedorApply p r ≠ r))
    (fun a ha => by simp [h a ha])
  unfold updateProveedoresSQL
  rw [h1, h2]
  rfl

theorem deleteProveedores_no_match (t : Table ProveedorRow) (i : Int)
    (h : ∀ r ∈ t.rows, r.id_proveedor ≠ i) :
    deleteProveedoresSQL t i = (t, 0) := by
  have h1 : t.rows.filter (fun r => decide (r.id_proveedor ≠ i)) = t.rows :=
    filter_eq_self_of _ _ (fun a ha => by simp [h a ha])
  have h2 := filter_length_zero t.rows (fun r => decide (r.id_proveedor = i))
    (fun a ha => by simp [h a ha])
  unfold deleteProveedoresSQL
  rw [h1, h2]
  rfl

/-- C4: an update or delete on any of the three resources whose id matches
no stored row yields a zero affected-row count, which the handler maps to a
404 response, and the table is left unchanged. (For client and supplier
updates the payload must pass the preceding required-field check to reach
the query at all.) -/
theorem c4_missing_id_not_found (te : Table EmpleadoRow)
    (tc : Table ClienteRow) (tp : Table ProveedorRow) (i : Int)
    (e : EmpleadoCreate) (c : ClienteCreate) (p : ProveedorCreate)
    (he : ∀ r ∈ te.rows, r.id ≠ i)
    (hc : ∀ r ∈ tc.rows, r.id_cliente ≠ i)
    (hp : ∀ r ∈ tp.rows, r.id_proveedor ≠ i)
    (hcv : ¬(c.numero_identificacion = "" ∨ c.nombre_cliente = "" ∨
      c.telefono_cliente = ""))
    (hpv : ¬(p.numero_identificacion = "" ∨ p.nombre_proveedor = "" ∨
      p.contacto_principal = "" ∨ p.telefono_proveedor = "")) :
    ((update_empleado te i e).resp = .err 404 ∧
      (update_empleado te i e).state = te) ∧
    ((delete_empleado te i).resp = .err 404 ∧
      (delete_empleado te i).state = te) ∧
    ((update_cliente tc i c).resp = .err 404 ∧
      (update_cliente tc i c).state = tc) ∧
    ((delete_cliente tc i).resp = .err 404 ∧
      (delete_cliente tc i).state = tc) ∧
    ((update_proveedor tp i p).resp = .err 404 ∧
      (update_proveedor tp i p).state = tp) ∧
    ((delete_proveedor tp i).resp = .err 404 ∧
      (delete_proveedor tp i).state = tp) := by
  refine ⟨?_, ?_, ?_, ?_, ?_, ?_⟩
  · unfold update_empleado
    rw [updateEmpleados_no_match te i e he]
    exact ⟨rfl, rfl⟩
  · unfold delete_empleado
    rw [deleteEmpleados_no_match te i he]
    exact ⟨rfl, rfl⟩
  · unfold update_cliente
    rw [if_neg hcv, updateClientes_no_match tc i c hc]
    exact ⟨rfl, rfl⟩
  · unfold delete_cliente
    rw [deleteClientes_no_match tc i hc]
    exact ⟨rfl, rfl⟩
  · unfold update_proveedor
    rw [if_neg hpv, updateProveedores_no_match tp i p hp]
    exact ⟨rfl, rfl⟩
  · unfold delete_proveedor
    rw [deleteProveedores_no_match tp i hp]
    exact ⟨rfl, rfl⟩

/-- C4 witness: concrete one-row tables and an id (7) present in none. -/
theorem c4_missing_id_not_found_witness :
    ((update_empleado ⟨[⟨1, "Ana", "dev", 10⟩], 2⟩ 7 ⟨"B", "qa", 20⟩).resp =
        .err 404 ∧
      (update_empleado ⟨[⟨1, "Ana", "dev", 10⟩], 2⟩ 7 ⟨"B", "qa", 20⟩).state =
        ⟨[⟨1, "Ana", "dev", 10⟩], 2⟩) ∧
    ((delete_empleado ⟨[⟨1, "Ana", "dev", 10⟩], 2⟩ 7).resp = .err 404 ∧
      (delete_empleado ⟨[⟨1, "Ana", "dev", 10⟩], 2⟩ 7).state =
        ⟨[⟨1, "Ana", "dev", 10⟩], 2⟩) ∧
    ((update_cliente ⟨[], 1⟩ 7 ⟨"A1", "Jane", "555-0100", none⟩).resp =
        .err 404 ∧
      (update_cliente ⟨[], 1⟩ 7 ⟨"A1", "Jane", "555-0100", none⟩).state =
        ⟨[], 1⟩) ∧
    ((delete_cliente ⟨[], 1⟩ 7).resp = .err 404 ∧
      (delete_cliente ⟨[], 1⟩ 7).state = ⟨[], 1⟩) ∧
    ((update_proveedor ⟨[], 1⟩ 7 ⟨"P1", "Acme", "Bob", "555-1"⟩).resp =
        .err 404 ∧
      (update_proveedor ⟨[], 1⟩ 7 ⟨"P1", "Acme", "Bob", "555-1"⟩).state =
        ⟨[], 1⟩) ∧
    ((delete_proveedor ⟨[], 1⟩ 7).resp = .err 404 ∧
      (delete_proveedor ⟨[], 1⟩ 7).state = ⟨[], 1⟩) :=
  c4_missing_id_not_found ⟨[⟨1, "Ana", "dev", 10⟩], 2⟩ ⟨[], 1⟩ ⟨[], 1⟩ 7
    ⟨"B", "qa", 20⟩ ⟨"A1", "Jane", "555-0100", none⟩ ⟨"P1", "Acme", "Bob", "555-1"⟩
    (by decide) (by decide) (by decide) (by decide) (by decide)

/-- C5 counterexample: the employee create handler performs no
required-field validation — with every field empty it still issues the
insert query and answers 201, instead of a 400 with no query executed. -/
theorem c5_counterexample :
    (create_empleado ⟨[], 1⟩ ⟨"", "", 0⟩).issued =
      [insertEmpleadoQuery ⟨"", "", 0⟩] ∧
    (create_empleado ⟨[], 1⟩ ⟨"", "", 0⟩).issued ≠ [] ∧
    (create_empleado ⟨[], 1⟩ ⟨"", "", 0⟩).resp = .ok 201 ⟨1, "", "", 0⟩ :=
  ⟨rfl, by decide, rfl⟩

/-- C5 (amended): the empty-required-field check guards only the client and
supplier create/update handlers, where it yields a 400 before any query and
leaves the table untouched; the employee create/update handlers perform no
such check and always issue their query. -/
theorem c5_validation_guards (tc : Table ClienteRow) (tp : Table ProveedorRow)
    (te : Table EmpleadoRow) (c : ClienteCreate) (p : ProveedorCreate)
    (e : EmpleadoCreate) (i : Int)
    (hc : c.numero_identificacion = "" ∨ c.nombre_cliente = "" ∨
      c.telefono_cliente = "")
    (hp : p.numero_identificacion = "" ∨ p.nombre_proveedor = "" ∨
      p.contacto_principal = "" ∨ p.telefono_proveedor = "") :
    ((create_cliente tc c).resp = .err 400 ∧
      (create_cliente tc c).issued = [] ∧ (create_cliente tc c).state = tc) ∧
    ((update_cliente tc i c).resp = .err 400 ∧
      (update_cliente tc i c).issued = [] ∧
      (update_cliente tc i c).state = tc) ∧
    ((create_proveedor tp p).resp = .err 400 ∧
      (create_proveedor tp p).issued = [] ∧
      (create_proveedor tp p).state = tp) ∧
    ((update_proveedor tp i p).resp = .err 400 ∧
      (update_proveedor tp i p).issued = [] ∧
      (update_proveedor tp i p).state = tp) ∧
    (create_empleado te e).issued = [insertEmpleadoQuery e] ∧
    (update_empleado te i e).issued = [updateEmpleadoQuery i e] := by
  refine ⟨?_, ?_, ?_, ?_, ?_, ?_⟩
  · unfold create_cliente
    rw [if_pos hc]
    exact ⟨rfl, rfl, rfl⟩
  · unfold update_cliente
    rw [if_pos hc]
    exact ⟨rfl, rfl, rfl⟩
  · unfold create_proveedor
    rw [if_pos hp]
    exact ⟨rfl, rfl, rfl⟩
  · unfold update_proveedor
    rw [if_pos hp]
    exact ⟨rfl, rfl, rfl⟩
  · rfl
  · unfold update_empleado
    simp only []
    split <;> rfl

/-- C5 witness: the amended theorem on concrete empty-field payloads. -/
theorem c5_validation_guards_witness :
    ((create_cliente ⟨[], 1⟩ ⟨"", "Jane", "555-0100", none⟩).resp =
        .err 400 ∧
      (create_cliente ⟨[], 1⟩ ⟨"", "Jane", "555-0100", none⟩).issued = [] ∧
      (create_cliente ⟨[], 1⟩ ⟨"", "Jane", "555-0100", none⟩).state =
        ⟨[], 1⟩) ∧
    ((update_cliente ⟨[], 1⟩ 4 ⟨"", "Jane", "555-0100", none⟩).resp =
        .err 400 ∧
      (update_cliente ⟨[], 1⟩ 4 ⟨"", "Jane", "555-0100", none⟩).issued =
        [] ∧
      (update_cliente ⟨[], 1⟩ 4 ⟨"", "Jane", "555-0100", none⟩).state =
        ⟨[], 1⟩) ∧
    ((create_proveedor ⟨[], 1⟩ ⟨"P1", "", "Bob", "555-1"⟩).resp =
        .err 400 ∧
      (create_proveedor ⟨[], 1⟩ ⟨"P1", "", "Bob", "555-1"⟩).issued = [] ∧
      (create_proveedor ⟨[], 1⟩ ⟨"P1", "", "Bob", "555-1"⟩).state =
        ⟨[], 1⟩) ∧
    ((update_proveedor ⟨[], 1⟩ 4 ⟨"P1", "", "Bob", "555-1"⟩).resp =
        .err 400 ∧
      (update_proveedor ⟨[], 1⟩ 4 ⟨"P1", "", "Bob", "555-1"⟩).issued = [] ∧
      (update_proveedor ⟨[], 1⟩ 4 ⟨"P1", "", "Bob", "555-1"⟩).state =
        ⟨[], 1⟩) ∧
    (create_empleado ⟨[], 1⟩ ⟨"Ana", "dev", 10⟩).issued =
      [insertEmpleadoQuery ⟨"Ana", "dev", 10⟩] ∧
    (update_empleado ⟨[], 1⟩ 4 ⟨"Ana", "dev", 10⟩).issued =
      [updateEmpleadoQuery 4 ⟨"Ana", "dev", 10⟩] :=
  c5_validation_guards ⟨[], 1⟩ ⟨[], 1⟩ ⟨[], 1⟩
    ⟨"", "Jane", "555-0100", none⟩ ⟨"P1", "", "Bob", "555-1"⟩
    ⟨"Ana", "dev", 10⟩ 4 (by decide) (by decide)

/-- C6: a valid create on `/clientes` answers 201 with exactly the submitted
fields plus the freshly assigned numeric id, and a subsequent get on that id
returns a record whose fields equal what was submitted. -/
theorem c6_create_get_roundtrip (t : Table ClienteRow) (c : ClienteCreate)
    (hv : ¬(c.numero_identificacion = "" ∨ c.nombre_cliente = "" ∨
      c.telefono_cliente = ""))
    (hfresh : ∀ r ∈ t.rows, r.id_cliente ≠ t.nextId) :
    (create_cliente t c).resp = .ok 201 ⟨t.nextId, c.numero_identificacion,
      c.nombre_cliente, c.telefono_cliente, c.email_cliente⟩ ∧
    (get_cliente (create_cliente t c).state t.nextId).resp =
      .ok 200 ⟨t.nextId, c.numero_identificacion, c.nombre_cliente,
        c.telefono_cliente, c.email_cliente⟩ := by
  unfold create_cliente
  rw [if_neg hv]
  refine ⟨rfl, ?_⟩
  unfold get_cliente
  have hfind : ((insertClientesSQL t c).2.rows.find?
      (fun r => decide (r.id_cliente = t.nextId))) =
      some ⟨t.nextId, c.numero_identificacion, c.nombre_cliente,
        c.telefono_cliente, c.email_cliente⟩ := by
    unfold insertClientesSQL
    exact find_append_singleton t.rows _ _
      (fun a ha => by simp [hfresh a ha]) (by simp)
  rw [hfind]

/-- C6 witness: the round trip on the concrete scenario — client "A1",
"Jane", "555-0100" created into an empty table. -/
theorem c6_create_get_roundtrip_witness :
    (create_cliente ⟨[], 1⟩ ⟨"A1", "Jane", "555-0100", none⟩).resp =
      .ok 201 ⟨1, "A1", "Jane", "555-0100", none⟩ ∧
    (get_cliente (create_cliente ⟨[], 1⟩
        ⟨"A1", "Jane", "555-0100", none⟩).state 1).resp =
      .ok 200 ⟨1, "A1", "Jane", "555-0100", none⟩ :=
  c6_create_get_roundtrip ⟨[], 1⟩ ⟨"A1", "Jane", "555-0100", none⟩
    (by decide) (by decide)

/-- C7: for every handler the SQL text handed to the executor is a fixed
literal, independent of the request data; input values appear only in the
separate bound-parameter list. -/
theorem c7_sql_independent_of_input (ia ib : Int) (ea eb : EmpleadoCreate)
    (ca cb : ClienteCreate) (pa pb : ProveedorCreate) :
    (getEmpleadoQuery ia).sql = (getEmpleadoQuery ib).sql ∧
    (insertEmpleadoQuery ea).sql = (insertEmpleadoQuery eb).sql ∧
    (updateEmpleadoQuery ia ea).sql = (updateEmpleadoQuery ib eb).sql ∧
    (deleteEmpleadoQuery ia).sql = (deleteEmpleadoQuery ib).sql ∧
    (getClienteQuery ia).sql = (getClienteQuery ib).sql ∧
    (insertClienteQuery ca).sql = (insertClienteQuery cb).sql ∧
    (updateClienteQuery ia ca).sql = (updateClienteQuery ib cb).sql ∧
    (deleteClienteQuery ia).sql = (deleteClienteQuery ib).sql ∧
    (getProveedorQuery ia).sql = (getProveedorQuery ib).sql ∧
    (insertProveedorQuery pa).sql = (insertProveedorQuery pb).sql ∧
    (updateProveedorQuery ia pa).sql = (updateProveedorQuery ib pb).sql ∧
    (deleteProveedorQuery ia).sql = (deleteProveedorQuery ib).sql :=
  ⟨rfl, rfl, rfl, rfl, rfl, rfl, rfl, rfl, rfl, rfl, rfl, rfl⟩

/-- How one attempt to build the connection pool ends: success, the
server-reported connection-limit error (`ER_USER_LIMIT_REACHED`), or any
other `mysql.connector.Error`. -/
inductive PoolCreateResult where
  | ok
  | errLimit
  | errOther
  deriving DecidableEq, Repr

/-- Outcome of module initialization: a pool of some size, or a fatal
`RuntimeError` (the process does not start). -/
inductive InitOutcome where
  | pool (size : Int)
  | fatal
  deriving DecidableEq, Repr

/-- Trace of module initialization: the pool sizes attempted, in order,
and the final outcome. -/
structure InitTrace where
  attempts : List Int
  outcome : InitOutcome
  deriving DecidableEq, Repr

/-- Module-level pool creation in `database.py`, against an environment
`create` describing how the server answers a creation attempt of each
size: try `pool_size`; on the connection-limit error retry exactly once
with `min(3, pool_size - 2)`; any failure of the retry, and any
non-limit failure of the first attempt, raises `RuntimeError`. -/
def initPool (create : Int → PoolCreateResult) (pool_size : Int) :
    InitTrace :=
  match create pool_size with
  | .ok => ⟨[pool_size], .pool pool_size⟩
  | .errLimit =>
    let reduced := min 3 (pool_size - 2)
    match create reduced with
    | .ok => ⟨[pool_size, reduced], .pool reduced⟩
    | .errLimit => ⟨[pool_size, reduced], .fatal⟩
    | .errOther => ⟨[pool_size, reduced], .fatal⟩
  | .errOther => ⟨[pool_size], .fatal⟩

/-- C2 counterexample: with pool size 10 and a server that reports the
connection limit on the first attempt and accepts anything else, the code
retries with `min(3, 10 - 2) = 3` connections — not with
`max(10 - 2, 1) = 8` as claimed. -/
theorem c2_counterexample :
    (initPool (fun s => if s = 10 then .errLimit else .ok) 10).attempts =
      [10, 3] ∧
    (initPool (fun s => if s = 10 then .errLimit else .ok) 10).outcome =
      .pool 3 ∧
    (3 : Int) ≠ max (10 - 2) 1 := by
  refine ⟨?_, ?_, by decide⟩ <;> rfl

/-- C2 (amended): on a connection-limit failure initialization retries
exactly once, with `min(3, pool_size - 2)` connections; a successful retry
yields a pool of that size, a failed retry is fatal, and any non-limit
failure of the first attempt is fatal immediately with no retry. -/
theorem c2_limit_retry_once (create : Int → PoolCreateResult) (n : Int)
    (h : create n = .errLimit) :
    (initPool create n).attempts = [n, min 3 (n - 2)] ∧
    (create (min 3 (n - 2)) = .ok →
      (initPool create n).outcome = .pool (min 3 (n - 2))) ∧
    (create (min 3 (n - 2)) ≠ .ok →
      (initPool create n).outcome = .fatal) ∧
    (∀ m : Int, create m = .errOther →
      (initPool create m).attempts = [m] ∧
      (initPool create m).outcome = .fatal) := by
  refine ⟨?_, ?_, ?_, ?_⟩
  · unfold initPool
    rw [h]
    simp only []
    split <;> rfl
  · intro hr
    unfold initPool
    rw [h]
    simp only []
    rw [hr]
  · intro hr
    unfold initPool
    rw [h]
    simp only []
    cases hr2 : create (min 3 (n - 2)) with
    | ok => exact absurd hr2 hr
    | errLimit => rfl
    | errOther => rfl
  · intro m hm
    unfold initPool
    rw [hm]
    exact ⟨rfl, rfl⟩

/-- C2 witness: size 5 is rejected with the limit error, the single retry
with `min(3, 3) = 3` succeeds; size 9 fails with a non-limit error and is
fatal with no retry. -/
theorem c2_limit_retry_once_witness :
    (initPool (fun s => if s = 5 then .errLimit else
      if s = 9 then .errOther else .ok) 5).attempts = [5, 3] ∧
    (initPool (fun s => if s = 5 then .errLimit else
      if s = 9 then .errOther else .ok) 5).outcome = .pool 3 ∧
    (initPool (fun s => if s = 5 then .errLimit else
      if s = 9 then .errOther else .ok) 9).attempts = [9] ∧
    (initPool (fun s => if s = 5 then .errLimit else
      if s = 9 then .errOther else .ok) 9).outcome = .fatal :=
  ⟨((c2_limit_retry_once (fun s => if s = 5 then .errLimit else
      if s = 9 then .errOther else .ok) 5 (by decide)).1),
   ((c2_limit_retry_once (fun s => if s = 5 then .errLimit else
      if s = 9 then .errOther else .ok) 5 (by decide)).2.1 (by decide)),
   ((c2_limit_retry_once (fun s => if s = 5 then .errLimit else
      if s = 9 then .errOther else .ok) 5 (by decide)).2.2.2 9
        (by decide)).1,
   ((c2_limit_retry_once (fun s => if s = 5 then .errLimit else
      if s = 9 then .errOther else .ok) 5 (by decide)).2.2.2 9
        (by decide)).2⟩

/-- The process environment: variable name to optional value. -/
abbrev Env := String → Option String

/-- Python `int()` on a decimal string (raises, i.e. `none`, on anything
that does not parse as an integer). -/
def pyInt (s : String) : Option Int := s.toInt?

/-- The configuration record built by `DBConfig.__init__`. -/
structure DBConfig where
  host : String
  user : String
  password : String
  database : String
  port : Int
  ssl_disabled : Bool
  pool_size : Int
  deriving DecidableEq, Repr

/-- `DBConfig.__init__` from `database.py`: each field is read from the
environment exactly once at construction, with these defaults when the
variable is unset; `DB_PORT` and `DB_POOL_SIZE` go through `int()`, which
raises (`none`) on an unparseable value; `ssl_disabled` compares the raw
string against exactly `"True"`. -/
def DBConfig.ofEnv (env : Env) : Option DBConfig :=
  match (match env "DB_PORT" with
         | none => some (3306 : Int)
         | some v => pyInt v),
        (match env "DB_POOL_SIZE" with
         | none => some (3 : Int)
         | some v => pyInt v) with
  | some port, some pool =>
    some ⟨(env "DB_HOST").getD
        "bsuwmw1ycddteycis6m7-mysql.services.clever-cloud.com",
      (env "DB_USER").getD "u2laijuwgrququak",
      (env "DB_PASSWORD").getD "K7tO7lfFm2i7vXAGHN6U",
      (env "DB_NAME").getD "bsuwmw1ycddteycis6m7",
      port,
      ((env "SSL_DISABLED").getD "True") == "True",
      pool⟩
  | _, _ => none

/-- `DBConfig.connection_params`: the base keyword arguments, plus
`ssl_ca` exactly when TLS is not disabled. -/
def DBConfig.connection_params (cfg : DBConfig) : List (String × PyVal) :=
  [("host", .s cfg.host), ("user", .s cfg.user),
   ("password", .s cfg.password), ("database", .s cfg.database),
   ("port", .i cfg.port)] ++
  (if cfg.ssl_disabled then [] else [("ssl_ca", .s "/etc/ssl/cert.pem")])

theorem ofEnv_ssl_disabled (env : Env) (cfg : DBConfig)
    (h : DBConfig.ofEnv env = some cfg) :
    cfg.ssl_disabled = (((env "SSL_DISABLED").getD "True") == "True") := by
  unfold DBConfig.ofEnv at h
  split at h
  · cases h
    rfl
  · cases h

/-- C8: when `DB_PORT`, `SSL_DISABLED` and `DB_POOL_SIZE` are unset the
configuration is built (no `int()` failure) with port 3306, the
TLS-disabled flag true and pool size 3; every other field is the
environment value or its fixed default, read once at construction. -/
theorem c8_config_defaults (env : Env) (hPort : env "DB_PORT" = none)
    (hSsl : env "SSL_DISABLED" = none)
    (hPool : env "DB_POOL_SIZE" = none) :
    DBConfig.ofEnv env = some
      ⟨(env "DB_HOST").getD
          "bsuwmw1ycddteycis6m7-mysql.services.clever-cloud.com",
        (env "DB_USER").getD "u2laijuwgrququak",
        (env "DB_PASSWORD").getD "K7tO7lfFm2i7vXAGHN6U",
        (env "DB_NAME").getD "bsuwmw1ycddteycis6m7",
        3306, true, 3⟩ := by
  unfold DBConfig.ofEnv
  rw [hPort, hPool, hSsl]
  rfl

/-- C8 witness: the empty environment yields exactly the default record. -/
theorem c8_config_defaults_witness :
    DBConfig.ofEnv (fun _ => none) = some
      ⟨"bsuwmw1ycddteycis6m7-mysql.services.clever-cloud.com",
        "u2laijuwgrququak", "K7tO7lfFm2i7vXAGHN6U", "bsuwmw1ycddteycis6m7",
        3306, true, 3⟩ :=
  c8_config_defaults (fun _ => none) rfl rfl rfl

/-- C10: the TLS-disabled flag is true exactly when `SSL_DISABLED` (default
`"True"`) is the exact string `"True"`; when the flag is false the
connection parameters carry `ssl_ca = "/etc/ssl/cert.pem"`, and when it is
true the `ssl_ca` key is absent. -/
theorem c10_ssl_flag (env : Env) (cfg : DBConfig)
    (h : DBConfig.ofEnv env = some cfg) :
    (cfg.ssl_disabled = true ↔ ((env "SSL_DISABLED").getD "True") = "True") ∧
    (cfg.ssl_disabled = false →
      cfg.connection_params.lookup "ssl_ca" = some (.s "/etc/ssl/cert.pem")) ∧
    (cfg.ssl_disabled = true →
      cfg.connection_params.lookup "ssl_ca" = none) := by
  refine ⟨?_, ?_, ?_⟩
  · rw [ofEnv_ssl_disabled env cfg h]
    exact beq_iff_eq
  · intro hssl
    unfold DBConfig.connection_params
    rw [hssl]
    rfl
  · intro hssl
    unfold DBConfig.connection_params
    rw [hssl]
    rfl

/-- C10 witness: with `SSL_DISABLED=true` (lowercase) the flag is false and
`ssl_ca` is present in the parameters. -/
theorem c10_ssl_flag_witness :
    ((⟨"bsuwmw1ycddteycis6m7-mysql.services.clever-cloud.com",
        "u2laijuwgrququak", "K7tO7lfFm2i7vXAGHN6U", "bsuwmw1ycddteycis6m7",
        3306, false, 3⟩ : DBConfig).ssl_disabled = true ↔
      ((((fun v => if v = "SSL_DISABLED" then some "true" else none) : Env)
          "SSL_DISABLED").getD "True") = "True") ∧
    ((⟨"bsuwmw1ycddteycis6m7-mysql.services.clever-cloud.com",
        "u2laijuwgrququak", "K7tO7lfFm2i7vXAGHN6U", "bsuwmw1ycddteycis6m7",
        3306, false, 3⟩ : DBConfig).ssl_disabled = false →
      (⟨"bsuwmw1ycddteycis6m7-mysql.services.clever-cloud.com",
        "u2laijuwgrququak", "K7tO7lfFm2i7vXAGHN6U", "bsuwmw1ycddteycis6m7",
        3306, false, 3⟩ : DBConfig).connection_params.lookup "ssl_ca" =
        some (.s "/etc/ssl/cert.pem")) ∧
    ((⟨"bsuwmw1ycddteycis6m7-mysql.services.clever-cloud.com",
        "u2laijuwgrququak", "K7tO7lfFm2i7vXAGHN6U", "bsuwmw1ycddteycis6m7",
        3306, false, 3⟩ : DBConfig).ssl_disabled = true →
      (⟨"bsuwmw1ycddteycis6m7-mysql.services.clever-cloud.com",
        "u2laijuwgrququak", "K7tO7lfFm2i7vXAGHN6U", "bsuwmw1ycddteycis6m7",
        3306, false, 3⟩ : DBConfig).connection_params.lookup "ssl_ca" =
        none) :=
  c10_ssl_flag
    (fun v => if v = "SSL_DISABLED" then some "true" else none)
    ⟨"bsuwmw1ycddteycis6m7-mysql.services.clever-cloud.com",
      "u2laijuwgrququak", "K7tO7lfFm2i7vXAGHN6U", "bsuwmw1ycddteycis6m7",
      3306, false, 3⟩ (by decide)
